import Mathlib

/-!
Verification development for the `caching` library (src/caching/base.py),
a read-through, invalidation-aware query-result cache.

The embedding is shallow: each Python function under verification is
translated into an executable Lean definition over explicit state.
External collaborators (the key-value cache store, the invalidator
module `caching/invalidation.py`, which is imported by base.py but not
part of src/) are modelled from the spec where their behaviour matters,
and otherwise recorded as events in an execution trace, so that claims
about *when* they are called can be stated as facts about traces.
-/

/-- Python values as they appear in the cached / attribute layer.
`PyVal.none` is the Python `None` object. -/
inductive PyVal where
  | none
  | int (n : Int)
  | str (s : String)
  deriving DecidableEq, Repr

/-- A key-value cache store, modelled as an association list with
most-recent-write-first lookup. `set` overwrites, `add` is add-if-absent,
exactly the external Cache Store contract of spec section 6. -/
abbrev KVStore (α : Type) := List (String × α)

def storeGet {α : Type} : KVStore α → String → Option α
  | [], _ => Option.none
  | (k, v) :: st, key => if k = key then some v else storeGet st key

def storeSet {α : Type} (st : KVStore α) (key : String) (v : α) : KVStore α :=
  (key, v) :: st

def storeAdd {α : Type} (st : KVStore α) (key : String) (v : α) : KVStore α :=
  if (storeGet st key).isSome then st else storeSet st key v

/-- Modelled from the spec: `make_key` lives in `caching/invalidation.py`,
which is imported by base.py but absent from src/. Spec section 4.1: a
namespaced key whose payload component is a deterministic hash of the
input. The hash is modelled as the identity encoding under a fixed
prefix, which preserves the determinism and injectivity the spec
requires; the locale salt is a fixed ambient value and is omitted. -/
def make_key (k : String) : String := "h:" ++ k

/-- Modelled from the spec: `flush_key` from `caching/invalidation.py`
(absent from src/): the flush-list key derived from a payload string. -/
def flush_key (k : String) : String := "flush:" ++ make_key k

/-- Embedding of `CachingMixin._cache_key(pk)` (base.py lines 332-340): join of the
parts `("o", cls._meta, pk)` with a colon. The class identifier
`cls._meta` and the primary key are taken already string-encoded
(`encoding.smart_unicode`). -/
def cache_key (meta pk : String) : String :=
  String.intercalate ":" ["o", meta, pk]

/-- Embedding of `CachingMixin._model_key()` (base.py lines 350-359): join of the
parts `("m", cls._meta)` with a colon. -/
def model_key (meta : String) : String :=
  String.intercalate ":" ["m", meta]

/-- Embedding of `_function_cache_key(key)` (base.py lines 387-388). -/
def function_cache_key (k : String) : String := make_key ("f:" ++ k)

/-- Events observable during `cached` / `cached_with` (base.py 391-418):
cache reads and writes, the warning log, the call of the memoised
function, and the flush-list registration done by `cached_with`. -/
inductive CWEvent where
  | cacheGet (key : String)
  | cacheSet (key : String)
  | warn
  | callF
  | addFlush (flushKey : String) (memberKey : String)
  deriving DecidableEq, Repr

/-- Result of running `cached` or `cached_with`: the returned value,
the cache store afterwards and the event trace. -/
structure CallResult where
  val : PyVal
  store : KVStore PyVal
  events : List CWEvent
  deriving Repr

/-- Embedding of `cached(function, key_, duration)` (base.py lines 391-402). The
memoised function is modelled by its return value `fRet`; the event
`callF` records that it was invoked. `cache.get` returns Python `None`
both for an absent key and for a stored `None`, which the model captures
by defaulting an absent lookup to `PyVal.none`. The TTL `duration` is
store-side metadata with no bearing on presence, and is dropped. -/
def cached (st : KVStore PyVal) (fRet : PyVal) (key_ : String) : CallResult :=
  let key := function_cache_key key_
  let val := (storeGet st key).getD PyVal.none
  if val = PyVal.none then
    { val := fRet,
      store := storeSet st key fRet,
      events := [CWEvent.cacheGet key, CWEvent.callF, CWEvent.cacheSet key] }
  else
    { val := val, store := st, events := [CWEvent.cacheGet key] }

/-- An object passed to `cached_with` (base.py lines 405-418): it may or
may not expose `query_key` and `cache_key`; `Option.none` models the
attribute being absent (so that access raises `AttributeError`). -/
structure CWObj where
  queryKey : Option String
  cacheKey : Option String
  flushKey : String
  deriving Repr

/-- Embedding of `cached_with(obj, f, f_key, timeout)` (base.py lines 405-418).
`obj_key` is `obj.query_key()` when the attribute exists, else
`obj.cache_key`; if neither exists the `AttributeError` branch logs a
warning and calls `f` directly with no cache interaction. -/
def cached_with (st : KVStore PyVal) (obj : CWObj) (fRet : PyVal) (f_key : String) :
    CallResult :=
  match (match obj.queryKey with
         | some q => some q
         | Option.none => obj.cacheKey) with
  | Option.none =>
      { val := fRet, store := st, events := [CWEvent.warn, CWEvent.callF] }
  | some objKey =>
      let key := f_key ++ ":" ++ objKey
      let r := cached st fRet key
      { val := r.val, store := r.store,
        events := CWEvent.addFlush obj.flushKey (function_cache_key key) :: r.events }

example : (cached [] (PyVal.int 3) "k").val = PyVal.int 3 := by decide
example : (cached [(function_cache_key "k", PyVal.int 3)] PyVal.none "k").events
    = [CWEvent.cacheGet (function_cache_key "k")] := by decide
example : cache_key "addons.addon" "2" = "o:addons.addon:2" := by decide
example : model_key "addons.addon" = "m:addons.addon" := by decide

/-- A materialised record as it flows through `CacheMachine`.
`fromCache` models the Python attribute `from_cache`: `Option.none`
means the attribute has not been set on the object. -/
structure Obj where
  id : Nat
  fromCache : Option Bool
  deriving DecidableEq, Repr

/-- Events observable during `CacheMachine.__iter__` /
`CacheMachine.cache_objects` (base.py 135-190) and
`CachingQuerySet.iterator` (base.py 238-252). `sqlSet` is the
diagnostic write `cache.set('sql:<key>', query_string)` done by
`query_key()`; it targets the disjoint `sql:` key namespace, is never
read back by any code under verification, and is therefore kept in the
trace but not in the typed object store. `iterCall` is the invocation
of the underlying relational iterator function. `invRegister` is
`invalidator.cache_objects(objects, query_key, query_flush)`, the
dependency-map registration. -/
inductive CMEvent where
  | sqlSet (key : String)
  | cacheGet (key : String)
  | iterCall
  | yieldObj (o : Obj)
  | cacheAdd (key : String) (timeout : Option Int)
  | invRegister (objs : List Obj) (queryKey : String) (queryFlush : String)
  deriving DecidableEq, Repr

def isCacheAdd : CMEvent → Bool
  | CMEvent.cacheAdd _ _ => true
  | _ => false

def isInvRegister : CMEvent → Bool
  | CMEvent.invRegister _ _ _ => true
  | _ => false

def isIterCall : CMEvent → Bool
  | CMEvent.iterCall => true
  | _ => false

/-- The store as `CacheMachine` uses it: query key to materialised
result list. -/
abbrev CMStore := KVStore (List Obj)

/-- Embedding of `CacheMachine.query_key()` (base.py lines 148-152): derive the key
from the query string with `make_key('qs:<query>', with_locale=False)`
and write the raw SQL next to it under `sql:<key>`. Returns the key
and the trace of the diagnostic write. -/
def cm_query_key (qs : String) : String × List CMEvent :=
  let key := make_key ("qs:" ++ qs)
  (key, [CMEvent.sqlSet ("sql:" ++ key)])

/-- Embedding of `CacheMachine.cache_objects(objects)` (base.py lines 185-190):
recompute the query key (repeating the diagnostic `sql:` write), then
`cache.add(query_key, objects, timeout)` — add-if-absent — then
register the dependency map with the invalidator. -/
def cache_objects (st : CMStore) (qs : String) (timeout : Option Int)
    (objects : List Obj) : CMStore × List CMEvent :=
  let (qk, ev1) := cm_query_key qs
  let qflush := flush_key qs
  (storeAdd st qk objects,
   ev1 ++ [CMEvent.cacheAdd qk timeout, CMEvent.invRegister objects qk qflush])

/-- Result of draining one `CacheMachine` iteration to exhaustion. -/
structure CMRun where
  yields : List Obj
  store : CMStore
  events : List CMEvent
  deriving Repr

/-- Embedding of `CacheMachine.__iter__` (base.py lines 154-183), as the caller sees
it when the generator is drained. The underlying iterator function is
modelled by the row list `dbRows` it would produce; `iterCall` records
its invocation. On a hit every stored object is tagged
`from_cache = True` and replayed in stored order. On a miss every row
is tagged `from_cache = False`, buffered and yielded, and only at
exhaustion, and only when at least one row was produced, is
`cache_objects` run. (The `EmptyResultSet` guard around `query_key()`
is unreachable here: the query string is already a plain string.) -/
def cm_run (qs : String) (dbRows : List Obj) (timeout : Option Int)
    (st : CMStore) : CMRun :=
  let (qk, ev1) := cm_query_key qs
  match storeGet st qk with
  | some cachedObjs =>
      let ys := cachedObjs.map (fun o => { o with fromCache := some true })
      { yields := ys, store := st,
        events := ev1 ++ [CMEvent.cacheGet qk] ++ ys.map CMEvent.yieldObj }
  | Option.none =>
      let tagged := dbRows.map (fun o => { o with fromCache := some false })
      let yieldEv := tagged.map CMEvent.yieldObj
      if tagged = [] then
        { yields := tagged, store := st,
          events := ev1 ++ [CMEvent.cacheGet qk, CMEvent.iterCall] ++ yieldEv }
      else
        let r := cache_objects st qs timeout tagged
        { yields := tagged, store := r.1,
          events := ev1 ++ [CMEvent.cacheGet qk, CMEvent.iterCall] ++ yieldEv ++ r.2 }

example :
    (cm_run "q" [Obj.mk 1 Option.none, Obj.mk 2 Option.none] Option.none []).yields
      = [Obj.mk 1 (some false), Obj.mk 2 (some false)] := by decide

example :
    (cm_run "q" [Obj.mk 7 Option.none] Option.none
      (cm_run "q" [Obj.mk 7 Option.none] Option.none []).store).yields
      = [Obj.mk 7 (some true)] := by decide

example :
    (cm_run "q" [] Option.none
      (cm_run "q" [] Option.none []).store).events.countP isIterCall = 1 := by decide

/-- The where-clause tree walked by `CachingQuerySet.get_constraints`
(base.py lines 205-235). `node` is a `WhereNode` with its child list;
`constr` is a leaf tuple whose first element is a `Constraint`,
carrying the constrained field's model identifier, whether that model
exposes `_model_key`, the model's primary-key field name (`Option.none`
when `_meta.pk` is absent/falsy) and the field name; `leaf` is any
other child. -/
inductive WTree where
  | node (children : List WTree)
  | constr (modelMeta : String) (hasModelKey : Bool) (pkName : Option String)
      (fieldName : String)
  | leaf
  deriving Repr

mutual

/-- The `(constraint_key, column)` pairs collected by the where-tree
walk of `get_constraints`: a constrained field contributes
`cols:<model_key>` with its name unless its model lacks `_model_key`
or the field is the primary key. The source walks with an explicit
stack; the recursion here visits the same nodes, and the resulting
key-to-column-set mapping (the deduplicated pair list) is identical
because `get_constraints` builds sets. -/
def constraintPairs : WTree → List (String × String)
  | WTree.node cs => constraintPairsL cs
  | WTree.constr meta hasMK pk name =>
      if hasMK = false then []
      else if pk = some name then []
      else [("cols:" ++ model_key meta, name)]
  | WTree.leaf => []

def constraintPairsL : List WTree → List (String × String)
  | [] => []
  | t :: ts => constraintPairs t ++ constraintPairsL ts

end

/-- Embedding of `CachingQuerySet.get_constraints` (base.py lines 205-235), as the
deduplicated mapping from `cols:<model_key>` to filtered columns. -/
def get_constraints (w : WTree) : List (String × String) :=
  (constraintPairs w).dedup

/-- Events observable during `CachingQuerySet.iterator`
(base.py lines 238-252): the flush-list registration of the discovered
constraints, a direct pass through the underlying iterator (`dbIter`,
taken on the NO_CACHE bypass and on `EmptyResultSet`), and the events
of a `CacheMachine` run. -/
inductive QSEvent where
  | addToFlushList (cs : List (String × String))
  | dbIter
  | cm (e : CMEvent)
  deriving DecidableEq, Repr

/-- The sentinel timeout disabling caching (base.py line 27). -/
def NO_CACHE : Int := -1

/-- Result of draining one `CachingQuerySet.iterator` call. -/
structure QSRun where
  yields : List Obj
  store : CMStore
  events : List QSEvent
  deriving Repr

/-- Embedding of `CachingQuerySet.iterator` (base.py lines 238-252). Constraint
discovery and `invalidator.add_to_flush_list(constraints)` happen
first, unconditionally. Then: if `self.timeout == NO_CACHE`, the
underlying iterator is returned directly; else the query string is
compiled (`queryString = Option.none` models `as_sql` raising
`EmptyResultSet`, in which case the underlying iterator is returned
directly); else a `CacheMachine` is built over the query string.
`FETCH_BY_ID` is its default `False` (base.py line 29), so the
`fetch_by_id` substitution does not occur. The row list `dbRows`
models what the underlying iterator would produce; direct passes yield
the rows untouched (no `from_cache` tagging). -/
def qs_iterator (w : WTree) (timeout : Option Int) (queryString : Option String)
    (dbRows : List Obj) (st : CMStore) : QSRun :=
  let cs := get_constraints w
  let ev0 := [QSEvent.addToFlushList cs]
  if timeout = some NO_CACHE then
    { yields := dbRows, store := st, events := ev0 ++ [QSEvent.dbIter] }
  else
    match queryString with
    | Option.none =>
        { yields := dbRows, store := st, events := ev0 ++ [QSEvent.dbIter] }
    | some qs =>
        let r := cm_run qs dbRows timeout st
        { yields := r.yields, store := r.store,
          events := ev0 ++ r.events.map QSEvent.cm }

example :
    (qs_iterator (WTree.node [WTree.constr "app.widget" true (some "id") "color"])
      (some NO_CACHE) (some "q") [Obj.mk 1 Option.none] []).events
      = [QSEvent.addToFlushList [("cols:m:app.widget", "color")], QSEvent.dbIter] := by
  decide

/-- A model instance as `CachingManager.pre_save` sees it: its `id`
attribute (`Option.none` models Python `None`) and its column
attributes; `hasattr` on a column is membership in the list, `getattr`
is lookup. -/
structure PSInstance where
  id : Option Nat
  attrs : List (String × PyVal)
  deriving Repr

/-- Python truthiness of `instance.id`: falsy when `None` or `0`. -/
def truthyId : Option Nat → Bool
  | Option.none => false
  | some n => n != 0

def hasattrA (i : PSInstance) (c : String) : Bool :=
  (i.attrs.find? (fun p => p.1 == c)).isSome

def getattrA (i : PSInstance) (c : String) : PyVal :=
  ((i.attrs.find? (fun p => p.1 == c)).map (fun p => p.2)).getD PyVal.none

/-- Events observable during `CachingManager.pre_save`
(base.py lines 47-83): the uncached fetch of the original row
(`cls.objects.no_cache().get(pk=instance.id)`), the
`invalidator.get_flush_lists` read of the watched-column set, and the
full-model invalidation. -/
inductive PSEvent where
  | fetchOrigNoCache
  | getFlushLists (key : String)
  | invalidateModel
  deriving DecidableEq, Repr

/-- The first column of the watched list on which the original and the
about-to-be-saved instance hold differing values, skipping columns
absent from either object — the loop of base.py lines 78-83. -/
def firstChangedCol (orig inst : PSInstance) : List String → Option String
  | [] => Option.none
  | c :: cs =>
      if hasattrA orig c && hasattrA inst c && getattrA orig c != getattrA inst c then
        some c
      else firstChangedCol orig inst cs

/-- Embedding of `CachingManager.pre_save` (base.py lines 47-83). Returns the event
trace. Early exits: fixture loading (`raw`), a new instance
(`not instance.id`), a manager without `invalidate_model`. Otherwise
the original row is fetched bypassing the cache, the watched-column
set `cols:<model_key>` is read from the invalidator (its contents
`flush_cols` are an input here, since the flush-list registry is
external state), and the first watched column whose values differ
triggers `invalidate_model()` and returns. The database fetch is
modelled by the `orig` input, which only takes effect if the fetch
line is reached. -/
def pre_save (raw : Bool) (inst : PSInstance) (hasInvalidateModel : Bool)
    (modelKey : String) (orig : PSInstance) (flush_cols : List String) :
    List PSEvent :=
  if raw then []
  else if truthyId inst.id = false then []
  else if hasInvalidateModel = false then []
  else
    PSEvent.fetchOrigNoCache ::
    PSEvent.getFlushLists ("cols:" ++ modelKey) ::
    (if flush_cols.length = 0 then []
     else
       match firstChangedCol orig inst flush_cols with
       | some _ => [PSEvent.invalidateModel]
       | Option.none => [])

example :
    pre_save false (PSInstance.mk (some 1) [("color", PyVal.str "red")]) true
      "app.widget" (PSInstance.mk (some 1) [("color", PyVal.str "blue")]) ["color"]
      = [PSEvent.fetchOrigNoCache, PSEvent.getFlushLists "cols:app.widget",
         PSEvent.invalidateModel] := by decide

example :
    pre_save false (PSInstance.mk (some 1) [("nviews", PyVal.int 9)]) true
      "app.widget" (PSInstance.mk (some 1) [("nviews", PyVal.int 3)]) ["color"]
      = [PSEvent.fetchOrigNoCache, PSEvent.getFlushLists "cols:app.widget"] := by decide

/-- One foreign-key field of a record, as enumerated by
`CachingMixin._cache_keys` (base.py lines 367-374): the target model's
identifier, whether the target exposes `_cache_key`, and the stored
foreign-key value (`Option.none` is a null reference). -/
structure FKSlot where
  targetMeta : String
  targetHasCacheKey : Bool
  value : Option String
  deriving DecidableEq, Repr

/-- A record instance as the post-save/post-delete hooks see it.
`hasCacheKeysAttr` models `hasattr(o, '_cache_keys')`, i.e. whether
the record class mixes in `CachingMixin`. -/
structure MRec where
  meta : String
  pk : String
  fks : List FKSlot
  hasCacheKeysAttr : Bool
  deriving DecidableEq, Repr

/-- The foreign-key part of `_cache_keys` (base.py lines 372-373): the
cache key of every referenced record whose value is not null and whose
target class exposes `_cache_key`. -/
def fkCacheKeys (r : MRec) : List String :=
  r.fks.filterMap fun f =>
    match f.value with
    | some v => if f.targetHasCacheKey then some (cache_key f.targetMeta v) else Option.none
    | Option.none => Option.none

/-- Embedding of `CachingMixin._cache_keys` (base.py lines 367-374): the record's
own cache key followed by the keys of its non-null foreign-key
references. -/
def mrec_cache_keys (r : MRec) : List String :=
  cache_key r.meta r.pk :: fkCacheKeys r

/-- Events observable in the post-save / post-delete hooks and in
`invalidate_model` (base.py lines 85-122): a bulk
`invalidator.invalidate_keys` call, the process-wide
`invalidator.clear()`, and the `cache.delete` of the constraint set. -/
inductive MgrEvent where
  | invalidateKeys (keys : List String)
  | invClear
  | cacheDelete (key : String)
  deriving DecidableEq, Repr

/-- Embedding of `CachingManager.invalidate(*objects)` (base.py lines 98-105):
collect `_cache_keys()` of every object exposing it, and call
`invalidator.invalidate_keys` only when the collected list is
nonempty. -/
def mgr_invalidate (objs : List MRec) : List MgrEvent :=
  let keys := (objs.map fun o =>
    if o.hasCacheKeysAttr then mrec_cache_keys o else []).flatten
  if keys.length > 0 then [MgrEvent.invalidateKeys keys] else []

/-- Embedding of `CachingManager.post_save` (base.py lines 85-88): invalidate the
instance, then, when the instance was just created, clear the entire
flush-list bookkeeping (`invalidator.clear()` takes no record
argument: it is process-wide). -/
def post_save (inst : MRec) (created : Bool) : List MgrEvent :=
  mgr_invalidate [inst] ++ (if created then [MgrEvent.invClear] else [])

/-- Embedding of `CachingManager.post_delete` (base.py lines 90-91). -/
def post_delete (inst : MRec) : List MgrEvent :=
  mgr_invalidate [inst]

example :
    post_save (MRec.mk "app.widget" "1" [FKSlot.mk "app.owner" true (some "7"),
      FKSlot.mk "app.owner" true Option.none] true) true
      = [MgrEvent.invalidateKeys ["o:app.widget:1", "o:app.owner:7"],
         MgrEvent.invClear] := by decide

/-- A model class as `CachingManager.invalidate_model` sees it:
whether it exposes `_model_key` (i.e. mixes in `CachingMixin`), its
`_meta` identifier, and its dotted module-qualified name used in the
error message. -/
structure MClass where
  hasModelKey : Bool
  meta : String
  dottedName : String
  deriving DecidableEq, Repr

/-- The outcome of a Python call: normal return, an `AttributeError`
raised by an attribute access, or an explicitly raised `Exception`. -/
inductive PyOutcome (α : Type) where
  | ok (a : α)
  | attributeError (attr : String)
  | raised (msg : String)
  deriving DecidableEq, Repr

/-- Whether an outcome is an explicitly raised `Exception`. -/
def isRaised {α : Type} : PyOutcome α → Bool
  | PyOutcome.raised _ => true
  | _ => false

/-- Embedding of `CachingManager.invalidate_model` (base.py lines 107-122),
line by line: line 113 evaluates `self.model._model_key()` first, so a
model lacking `_model_key` raises `AttributeError` there; only then
does line 116 test `hasattr(self.model, '_model_key')` and raise the
explicit "Needs CachingMixIn" exception — a branch that is
consequently unreachable. Otherwise the model key is invalidated and
the model's constraint set `cols:<model_key>` is deleted.
(`CACHE_DEBUG` logging is a no-op.) -/
def invalidate_model (m : MClass) : PyOutcome (List MgrEvent) :=
  if m.hasModelKey = false then PyOutcome.attributeError "_model_key"
  else
    let mk := model_key m.meta
    if m.hasModelKey = false then
      PyOutcome.raised ("The model Manager of " ++ m.dottedName ++
        " uses caching, but the model does not. Needs CachingMixIn.")
    else
      PyOutcome.ok [MgrEvent.invalidateKeys [mk], MgrEvent.cacheDelete ("cols:" ++ mk)]

/-- Embedding of `CachingManager.contribute_to_class` (base.py lines 40-45): the
setup/attachment hook only connects the four signal handlers; it
performs no participation-contract check and returns normally for
every model class, participating or not. -/
def contribute_to_class (_m : MClass) : PyOutcome (List String) :=
  PyOutcome.ok ["pre_save", "post_save", "post_delete", "m2m_changed"]

example :
    invalidate_model (MClass.mk false "app.widget" "app.models.Widget")
      = PyOutcome.attributeError "_model_key" := by decide

example :
    invalidate_model (MClass.mk true "app.widget" "app.models.Widget")
      = PyOutcome.ok [MgrEvent.invalidateKeys ["m:app.widget"],
          MgrEvent.cacheDelete "cols:m:app.widget"] := by decide

lemma storeGet_storeSet {α : Type} (st : KVStore α) (k key : String) (v : α) :
    storeGet (storeSet st k v) key = if k = key then some v else storeGet st key := by
  simp [storeSet, storeGet]

lemma storeGet_storeAdd_absent {α : Type} (st : KVStore α) (k : String) (v : α)
    (h : storeGet st k = Option.none) : storeGet (storeAdd st k v) k = some v := by
  simp [storeAdd, h, storeGet_storeSet]

lemma storeAdd_present {α : Type} (st : KVStore α) (k : String) (v w : α)
    (h : storeGet st k = some w) : storeAdd st k v = st := by
  simp [storeAdd, h]

/-- C7: `_cache_key` produces the canonical string `o:<class>:<pk>` and
`_model_key` produces `m:<class>`; both derivations are pure functions
of their inputs, so equal (class, pk) inputs give identical key strings
across calls and across process instances. -/
theorem C7_key_derivation : ∀ meta pk : String,
    cache_key meta pk = "o:" ++ meta ++ ":" ++ pk ∧
    model_key meta = "m:" ++ meta ∧
    (∀ meta2 pk2 : String, meta = meta2 → pk = pk2 →
       cache_key meta pk = cache_key meta2 pk2) := by
  intro meta pk
  refine ⟨?_, ?_, ?_⟩
  · simp [cache_key, String.intercalate, String.intercalate.go]
  · simp [model_key, String.intercalate, String.intercalate.go]
  · intro meta2 pk2 h1 h2
    rw [h1, h2]

theorem C7_key_derivation_witness :
    ("addons.addon" : String) = "addons.addon" ∧ ("2" : String) = "2" ∧
    cache_key "addons.addon" "2" = cache_key "addons.addon" "2" :=
  ⟨rfl, rfl, (C7_key_derivation "addons.addon" "2").2.2 "addons.addon" "2" rfl rfl⟩

/-- C8: `cached_with` on an object exposing neither `query_key` nor
`cache_key` does not fail the caller: it logs a warning, calls the
function directly and returns its result, with no cache read, no cache
write and no flush-list registration (the store is unchanged and the
trace holds only the warning and the function call). -/
theorem C8_cached_with_no_identity :
    ∀ (st : KVStore PyVal) (obj : CWObj) (fRet : PyVal) (f_key : String),
    obj.queryKey = Option.none → obj.cacheKey = Option.none →
    cached_with st obj fRet f_key =
      { val := fRet, store := st, events := [CWEvent.warn, CWEvent.callF] } := by
  intro st obj fRet f_key hq hc
  simp [cached_with, hq, hc]

theorem C8_cached_with_no_identity_witness :
    (CWObj.mk Option.none Option.none "fl").queryKey = Option.none ∧
    (CWObj.mk Option.none Option.none "fl").cacheKey = Option.none ∧
    cached_with [] (CWObj.mk Option.none Option.none "fl") (PyVal.int 5) "fk" =
      { val := PyVal.int 5, store := [],
        events := [CWEvent.warn, CWEvent.callF] } :=
  ⟨rfl, rfl,
   C8_cached_with_no_identity [] (CWObj.mk Option.none Option.none "fl")
     (PyVal.int 5) "fk" rfl rfl⟩

/-- C9: for a model class that does not expose `_model_key`,
`invalidate_model` stops with an `AttributeError` at the
`self.model._model_key()` dereference on base.py line 113, so the
explicit "Needs CachingMixIn" exception of lines 116-120 is never
raised for any model; and `contribute_to_class`, the setup/attachment
hook, performs no participation check at all and returns normally for
such a model. This contradicts the claim that the explicit
configuration exception is raised eagerly at attachment time. -/
theorem C9_participation_check_unreachable : ∀ m : MClass,
    m.hasModelKey = false →
    invalidate_model m = PyOutcome.attributeError "_model_key" ∧
    (∀ m2 : MClass, isRaised (invalidate_model m2) = false) ∧
    contribute_to_class m =
      PyOutcome.ok ["pre_save", "post_save", "post_delete", "m2m_changed"] := by
  intro m h
  refine ⟨by simp [invalidate_model, h], ?_, rfl⟩
  intro m2
  by_cases h2 : m2.hasModelKey = false
  · simp [invalidate_model, h2, isRaised]
  · simp [invalidate_model, h2, isRaised]

theorem C9_participation_check_unreachable_witness :
    (MClass.mk false "app.widget" "app.models.Widget").hasModelKey = false ∧
    invalidate_model (MClass.mk false "app.widget" "app.models.Widget") =
      PyOutcome.attributeError "_model_key" :=
  ⟨rfl,
   (C9_participation_check_unreachable
     (MClass.mk false "app.widget" "app.models.Widget") rfl).1⟩

/-- C10: `cached` decides hit versus miss by testing whether
`cache.get` returned `None`, and an absent entry and a stored `None`
both read back as `None`; hence whenever the lookup yields `None` the
function is called and its result returned, and, for a function whose
result is `None`, the entry written by `cache.set` is itself read back
as `None`, so every later call recomputes and the stored entry is
never served as a hit. -/
theorem C10_cached_none_is_miss :
    ∀ (st : KVStore PyVal) (fRet : PyVal) (key : String),
    ((storeGet st (function_cache_key key)).getD PyVal.none = PyVal.none →
       (cached st fRet key).events.contains CWEvent.callF = true ∧
       (cached st fRet key).val = fRet) ∧
    (cached (storeSet st (function_cache_key key) PyVal.none) fRet key).events.contains
      CWEvent.callF = true := by
  intro st fRet key
  constructor
  · intro h
    constructor <;> simp [cached, h]
  · simp [cached, storeGet_storeSet]

theorem C10_cached_none_is_miss_witness :
    (storeGet ([] : KVStore PyVal) (function_cache_key "k")).getD PyVal.none
        = PyVal.none ∧
    (cached [] PyVal.none "k").events.contains CWEvent.callF = true ∧
    (cached [] PyVal.none "k").val = PyVal.none :=
  ⟨by decide,
   ((C10_cached_none_is_miss [] PyVal.none "k").1 (by decide)).1,
   ((C10_cached_none_is_miss [] PyVal.none "k").1 (by decide)).2⟩

/-- C1: `pre_save` is a no-op when the record is new; otherwise (when
not loading a fixture and the manager exposes `invalidate_model`, as
`CachingManager` always does) it fetches the previous persisted state
bypassing the cache, and the first watched column whose previous and
about-to-be-saved values differ triggers a full-model invalidation and
stops; with no watched columns, or no differing watched column (in
particular when only unwatched columns changed), no invalidation of
any kind is performed. -/
theorem C1_pre_save_spec :
    ∀ (raw : Bool) (inst : PSInstance) (hasInv : Bool) (mk : String)
      (orig : PSInstance) (cols : List String),
    (truthyId inst.id = false → pre_save raw inst hasInv mk orig cols = []) ∧
    (raw = false → truthyId inst.id = true → hasInv = true →
       ((pre_save raw inst hasInv mk orig cols).contains PSEvent.fetchOrigNoCache
          = true ∧
        (∀ c : String, firstChangedCol orig inst cols = some c →
           pre_save raw inst hasInv mk orig cols =
             [PSEvent.fetchOrigNoCache, PSEvent.getFlushLists ("cols:" ++ mk),
              PSEvent.invalidateModel]) ∧
        (firstChangedCol orig inst cols = Option.none →
           (pre_save raw inst hasInv mk orig cols).contains PSEvent.invalidateModel
             = false))) := by
  intro raw inst hasInv mk orig cols
  constructor
  · intro h
    cases raw <;> simp [pre_save, h]
  · intro hraw hid hinv
    subst hraw; subst hinv
    refine ⟨?_, ?_, ?_⟩
    · cases cols with
      | nil => simp [pre_save, hid]
      | cons c cs =>
          cases hfc : firstChangedCol orig inst (c :: cs) <;>
            simp [pre_save, hid, hfc]
    · intro c hc
      cases cols with
      | nil => simp [firstChangedCol] at hc
      | cons c0 cs => simp [pre_save, hid, hc]
    · intro hnone
      cases cols with
      | nil => simp [pre_save, hid]
      | cons c0 cs => simp [pre_save, hid, hnone]

theorem C1_pre_save_spec_witness :
    truthyId (some 1) = true ∧
    firstChangedCol (PSInstance.mk (some 1) [("color", PyVal.str "blue")])
      (PSInstance.mk (some 1) [("color", PyVal.str "red")]) ["color"]
      = some "color" ∧
    pre_save false (PSInstance.mk (some 1) [("color", PyVal.str "red")]) true
      "m:app.widget" (PSInstance.mk (some 1) [("color", PyVal.str "blue")])
      ["color"]
      = [PSEvent.fetchOrigNoCache, PSEvent.getFlushLists "cols:m:app.widget",
         PSEvent.invalidateModel] :=
  ⟨by decide, by decide,
   ((C1_pre_save_spec false
       (PSInstance.mk (some 1) [("color", PyVal.str "red")]) true
       "m:app.widget" (PSInstance.mk (some 1) [("color", PyVal.str "blue")])
       ["color"]).2 rfl (by decide) rfl).2.1 "color" (by decide)⟩

/-- C5: for a record that mixes in `CachingMixin`, the after-create,
after-update and after-delete hooks invalidate exactly the list
`_cache_keys()` — the record's own key followed by the key of every
non-null foreign-key reference whose target participates — and the
after-create hook (`created = True`) additionally calls the
process-wide `invalidator.clear()`, which takes no record argument. -/
theorem C5_post_hooks :
    ∀ (inst : MRec) (created : Bool),
    inst.hasCacheKeysAttr = true →
    (post_save inst created =
       MgrEvent.invalidateKeys (cache_key inst.meta inst.pk :: fkCacheKeys inst) ::
         (if created then [MgrEvent.invClear] else [])) ∧
    ((MgrEvent.invClear ∈ post_save inst created) ↔ created = true) ∧
    (post_delete inst =
       [MgrEvent.invalidateKeys (cache_key inst.meta inst.pk :: fkCacheKeys inst)]) ∧
    (∀ k : String, k ∈ fkCacheKeys inst ↔
       ∃ f ∈ inst.fks, ∃ v : String, f.value = some v ∧
         f.targetHasCacheKey = true ∧ k = cache_key f.targetMeta v) := by
  intro inst created h
  refine ⟨?_, ?_, ?_, ?_⟩
  · simp [post_save, mgr_invalidate, mrec_cache_keys, h]
  · cases created <;> simp [post_save, mgr_invalidate, mrec_cache_keys, h]
  · simp [post_delete, mgr_invalidate, mrec_cache_keys, h]
  · intro k
    constructor
    · intro hk
      rcases List.mem_filterMap.mp hk with ⟨f, hf, hmatch⟩
      cases hfv : f.value with
      | none => simp [hfv] at hmatch
      | some v =>
          by_cases hb : f.targetHasCacheKey = true
          · simp [hfv, hb] at hmatch
            exact ⟨f, hf, v, hfv, hb, hmatch.symm⟩
          · simp [hfv, hb] at hmatch
    · rintro ⟨f, hf, v, hv, hb, rfl⟩
      exact List.mem_filterMap.mpr ⟨f, hf, by simp [hv, hb]⟩

theorem C5_post_hooks_witness :
    (MRec.mk "app.widget" "1"
      [FKSlot.mk "app.owner" true (some "7")] true).hasCacheKeysAttr = true ∧
    post_save (MRec.mk "app.widget" "1"
      [FKSlot.mk "app.owner" true (some "7")] true) true
      = [MgrEvent.invalidateKeys ["o:app.widget:1", "o:app.owner:7"],
         MgrEvent.invClear] :=
  ⟨rfl, by
    have h := (C5_post_hooks (MRec.mk "app.widget" "1"
      [FKSlot.mk "app.owner" true (some "7")] true) true rfl).1
    rw [h]; decide⟩

lemma cm_run_hit (qs : String) (rows : List Obj) (t : Option Int) (st : CMStore)
    (l : List Obj) (h : storeGet st (make_key ("qs:" ++ qs)) = some l) :
    cm_run qs rows t st =
      { yields := l.map (fun o => { o with fromCache := some true }),
        store := st,
        events := [CMEvent.sqlSet ("sql:" ++ make_key ("qs:" ++ qs)),
            CMEvent.cacheGet (make_key ("qs:" ++ qs))] ++
          (l.map (fun o => { o with fromCache := some true })).map CMEvent.yieldObj } := by
  simp [cm_run, cm_query_key, h]

lemma cm_run_miss (qs : String) (rows : List Obj) (t : Option Int) (st : CMStore)
    (h : storeGet st (make_key ("qs:" ++ qs)) = Option.none) (hne : rows ≠ []) :
    cm_run qs rows t st =
      { yields := rows.map (fun o => { o with fromCache := some false }),
        store := storeAdd st (make_key ("qs:" ++ qs))
          (rows.map (fun o => { o with fromCache := some false })),
        events := [CMEvent.sqlSet ("sql:" ++ make_key ("qs:" ++ qs)),
            CMEvent.cacheGet (make_key ("qs:" ++ qs)), CMEvent.iterCall] ++
          (rows.map (fun o => { o with fromCache := some false })).map
            CMEvent.yieldObj ++
          [CMEvent.sqlSet ("sql:" ++ make_key ("qs:" ++ qs)),
           CMEvent.cacheAdd (make_key ("qs:" ++ qs)) t,
           CMEvent.invRegister
             (rows.map (fun o => { o with fromCache := some false }))
             (make_key ("qs:" ++ qs)) (flush_key qs)] } := by
  simp [cm_run, cm_query_key, h, cache_objects, hne]

lemma cm_run_miss_empty (qs : String) (t : Option Int) (st : CMStore)
    (h : storeGet st (make_key ("qs:" ++ qs)) = Option.none) :
    cm_run qs [] t st =
      { yields := [], store := st,
        events := [CMEvent.sqlSet ("sql:" ++ make_key ("qs:" ++ qs)),
            CMEvent.cacheGet (make_key ("qs:" ++ qs)), CMEvent.iterCall] } := by
  simp [cm_run, cm_query_key, h]

/-- C2 counterexample: for a query with no prior cache entry whose
underlying iterator yields zero rows, the first execution leaves no
cache entry, so the second execution does call the underlying iterator
function once — not zero times as claimed. Both executions yield the
same (empty) sequence, so it is exactly the zero-relational-calls part
of the claim that fails. -/
theorem C2_counterexample :
    (cm_run "SELECT * FROM t" [] Option.none ([] : CMStore)).yields = [] ∧
    (cm_run "SELECT * FROM t" [] Option.none
       (cm_run "SELECT * FROM t" [] Option.none ([] : CMStore)).store).yields = [] ∧
    (cm_run "SELECT * FROM t" [] Option.none
       (cm_run "SELECT * FROM t" [] Option.none ([] : CMStore)).store).events.countP
      isIterCall = 1 := by
  refine ⟨by decide, by decide, by decide⟩

/-- C2 (amended): on a cache hit, `CacheMachine.__iter__` replays the
stored sequence in stored order with `from_cache = True` on every
yielded item, terminating with the stored list, and never calls the
underlying iterator function; hence for a query with no prior cache
entry *whose underlying iterator yields at least one row*, executing
it once and then again yields the same ordered record sequence both
times, with zero relational-execution calls on the second run and
every second-run item tagged as cache-sourced. -/
theorem C2_read_through :
    ∀ (qs : String) (rows : List Obj) (t : Option Int) (st : CMStore),
    (∀ l : List Obj, storeGet st (make_key ("qs:" ++ qs)) = some l →
       (cm_run qs rows t st).yields =
         l.map (fun o => { o with fromCache := some true }) ∧
       (cm_run qs rows t st).events.countP isIterCall = 0 ∧
       (cm_run qs rows t st).store = st) ∧
    (storeGet st (make_key ("qs:" ++ qs)) = Option.none → rows ≠ [] →
       ((cm_run qs rows t (cm_run qs rows t st).store).yields.map Obj.id =
          (cm_run qs rows t st).yields.map Obj.id ∧
        (cm_run qs rows t (cm_run qs rows t st).store).events.countP isIterCall = 0 ∧
        (∀ o ∈ (cm_run qs rows t (cm_run qs rows t st).store).yields,
           o.fromCache = some true))) := by
  intro qs rows t st
  constructor
  · intro l h
    rw [cm_run_hit qs rows t st l h]
    refine ⟨rfl, ?_, rfl⟩
    simp [List.countP_eq_zero, isIterCall]
  · intro h hne
    have h1 := cm_run_miss qs rows t st h hne
    have hstore : storeGet (cm_run qs rows t st).store (make_key ("qs:" ++ qs)) =
        some (rows.map (fun o => { o with fromCache := some false })) := by
      rw [h1]
      exact storeGet_storeAdd_absent _ _ _ h
    have h2 := cm_run_hit qs rows t (cm_run qs rows t st).store _ hstore
    refine ⟨?_, ?_, ?_⟩
    · rw [h2, h1]
      simp [List.map_map, Function.comp]
    · rw [h2]
      simp [List.countP_eq_zero, isIterCall]
    · rw [h2]
      intro o ho
      rcases List.mem_map.mp ho with ⟨o1, _, rfl⟩
      rfl

theorem C2_read_through_witness :
    storeGet ([] : CMStore) (make_key ("qs:" ++ "q")) = Option.none ∧
    ([Obj.mk 7 Option.none] : List Obj) ≠ [] ∧
    (cm_run "q" [Obj.mk 7 Option.none] Option.none
       (cm_run "q" [Obj.mk 7 Option.none] Option.none ([] : CMStore)).store).events.countP
      isIterCall = 0 :=
  ⟨by decide, by decide,
   (((C2_read_through "q" [Obj.mk 7 Option.none] Option.none ([] : CMStore)).2
      (by decide) (by decide)).2.1)⟩

/-- C3: when the underlying iterator yields zero rows on a cache miss,
`CacheMachine` leaves the object store untouched — in particular no
entry is stored under the query key — and performs no `cache.add` and
no dependency registration with the invalidator; consequently a
subsequent execution of the same query misses again, calls the
underlying iterator once, and re-derives the empty result. -/
theorem C3_zero_rows_not_cached :
    ∀ (qs : String) (t : Option Int) (st : CMStore),
    storeGet st (make_key ("qs:" ++ qs)) = Option.none →
    ((cm_run qs [] t st).yields = [] ∧
     (cm_run qs [] t st).store = st ∧
     storeGet (cm_run qs [] t st).store (make_key ("qs:" ++ qs)) = Option.none ∧
     (cm_run qs [] t st).events.countP isCacheAdd = 0 ∧
     (cm_run qs [] t st).events.countP isInvRegister = 0 ∧
     (cm_run qs [] t (cm_run qs [] t st).store).events.countP isIterCall = 1 ∧
     (cm_run qs [] t (cm_run qs [] t st).store).yields = []) := by
  intro qs t st h
  have h1 := cm_run_miss_empty qs t st h
  refine ⟨by rw [h1], by rw [h1], by rw [h1]; exact h, ?_, ?_, ?_, ?_⟩
  · rw [h1]; simp [List.countP_eq_zero, isCacheAdd]
  · rw [h1]; simp [List.countP_eq_zero, isInvRegister]
  · have h2 : (cm_run qs [] t st).store = st := by rw [h1]
    rw [h2, h1]
    simp [List.countP_cons, isIterCall]
  · have h2 : (cm_run qs [] t st).store = st := by rw [h1]
    rw [h2, h1]

theorem C3_zero_rows_not_cached_witness :
    storeGet ([] : CMStore) (make_key ("qs:" ++ "q")) = Option.none ∧
    (cm_run "q" [] Option.none ([] : CMStore)).store = ([] : CMStore) ∧
    (cm_run "q" [] Option.none ([] : CMStore)).events.countP isInvRegister = 0 :=
  ⟨by decide,
   ((C3_zero_rows_not_cached "q" Option.none ([] : CMStore) (by decide)).2.1),
   ((C3_zero_rows_not_cached "q" Option.none ([] : CMStore) (by decide)).2.2.2.2.1)⟩

/-- C4: on a cache miss with at least one row, the full event trace is:
the diagnostic `sql:` write, the cache read, the iterator invocation,
then one yield per record — each tagged `from_cache = False` — and only
after the last yield the second `sql:` write, the add-if-absent
`cache.add` of the buffered list under the query key, and only after
that the dependency-map registration with the invalidator. Moreover
`cache.add` never overwrites an entry that is already present, so a
value stored by a concurrent execution survives. -/
theorem C4_miss_writes_after_exhaustion :
    ∀ (qs : String) (rows : List Obj) (t : Option Int) (st : CMStore),
    storeGet st (make_key ("qs:" ++ qs)) = Option.none → rows ≠ [] →
    ((cm_run qs rows t st).events =
       [CMEvent.sqlSet ("sql:" ++ make_key ("qs:" ++ qs)),
        CMEvent.cacheGet (make_key ("qs:" ++ qs)), CMEvent.iterCall] ++
       (rows.map (fun o => { o with fromCache := some false })).map
         CMEvent.yieldObj ++
       [CMEvent.sqlSet ("sql:" ++ make_key ("qs:" ++ qs)),
        CMEvent.cacheAdd (make_key ("qs:" ++ qs)) t,
        CMEvent.invRegister (rows.map (fun o => { o with fromCache := some false }))
          (make_key ("qs:" ++ qs)) (flush_key qs)] ∧
     (cm_run qs rows t st).yields =
       rows.map (fun o => { o with fromCache := some false }) ∧
     (∀ o ∈ (cm_run qs rows t st).yields, o.fromCache = some false) ∧
     (∀ (st2 : KVStore (List Obj)) (key : String) (v objs : List Obj),
        storeGet st2 key = some v →
        storeGet (storeAdd st2 key objs) key = some v)) := by
  intro qs rows t st h hne
  have h1 := cm_run_miss qs rows t st h hne
  refine ⟨by rw [h1], by rw [h1], ?_, ?_⟩
  · rw [h1]
    intro o ho
    rcases List.mem_map.mp ho with ⟨o1, _, rfl⟩
    rfl
  · intro st2 key v objs h2
    rw [storeAdd_present st2 key objs v h2]
    exact h2

theorem C4_miss_writes_after_exhaustion_witness :
    storeGet ([] : CMStore) (make_key ("qs:" ++ "q")) = Option.none ∧
    ([Obj.mk 7 Option.none] : List Obj) ≠ [] ∧
    (cm_run "q" [Obj.mk 7 Option.none] Option.none ([] : CMStore)).yields
      = [Obj.mk 7 (some false)] :=
  ⟨by decide, by decide, by
    have h := ((C4_miss_writes_after_exhaustion "q" [Obj.mk 7 Option.none]
      Option.none ([] : CMStore) (by decide) (by decide)).2.1)
    rw [h]; decide⟩

/-- C6: with the `NO_CACHE` sentinel timeout, `CachingQuerySet.iterator`
still discovers the filter constraints and registers them with the
invalidator, then performs the underlying iteration directly: the
result rows pass through untouched, the store is unchanged, and the
trace holds no cache-machine event at all. In every mode — bypassed or
cached — the very first event is the same constraint registration, so
the registration is decided before and independently of the caching
decision. -/
theorem C6_no_cache_bypass :
    ∀ (w : WTree) (qsOpt : Option String) (rows : List Obj) (st : CMStore)
      (t : Option Int),
    (qs_iterator w (some NO_CACHE) qsOpt rows st =
       { yields := rows, store := st,
         events := [QSEvent.addToFlushList (get_constraints w), QSEvent.dbIter] }) ∧
    ((qs_iterator w t qsOpt rows st).events.head? =
       some (QSEvent.addToFlushList (get_constraints w))) := by
  intro w qsOpt rows st t
  constructor
  · simp [qs_iterator]
  · by_cases ht : t = some NO_CACHE
    · simp [qs_iterator, ht]
    · cases qsOpt with
      | none => simp [qs_iterator, ht]
      | some qs => simp [qs_iterator, ht]
